import Mathlib

/-!
Verification development for the ConwayPad server and client helpers.

The definitions below are a shallow embedding of the TypeScript source:

* `src/server/routes.ts` — `parseDeployMessage`, the `/api/chat` deploy gate,
  `deployTokenViaSDK`, `callConwayAI`, `normalizePaymentRequirements`,
  `generateFallbackResponse`;
* `src/client/src/lib/conway.ts` — `normalizeToken`;
* the Postgres storage layer (`getChatHistory`, `clearChatHistory`,
  `addChatMessage`), modelled as explicit state passing over a list of rows
  with SQL `WHERE`-equality semantics.

JavaScript-specific semantics (string truthiness, `||` defaulting, optional
chaining, `String.prototype.match` leftmost-match regex search with
backtracking, greedy/lazy quantifiers, lookahead and word boundaries) are
embedded explicitly so that the Lean functions compute the same results as
the TypeScript on the inputs the theorems mention.
-/

set_option maxRecDepth 4000

namespace ConwayPad

/-! ## JavaScript value helpers -/

/-- JS truthiness of an optional string: `undefined` and `""` are falsy. -/
def truthyS : Option String → Bool
  | none => false
  | some s => s ≠ ""

/-- JS `a || b` for strings: `""` is falsy. -/
def jsOrStr (a b : String) : String := if a = "" then b else a

/-- JS `x || d` where `x` is a possibly-undefined string. -/
def jsOrOpt (x : Option String) (d : String) : String :=
  match x with
  | some s => if s = "" then d else s
  | none => d

/-! ## Character classes used by the regexes in `routes.ts` -/

/-- JS regex `\w` alphabet used by `\b`: `[A-Za-z0-9_]`. -/
def wordChar (c : Char) : Bool :=
  ('a' ≤ c && c ≤ 'z') || ('A' ≤ c && c ≤ 'Z') || ('0' ≤ c && c ≤ '9') || c = '_'

/-- JS regex `\s`: WhiteSpace and LineTerminator code points. -/
def jsWsChar (c : Char) : Bool :=
  c = ' ' || c = '\t' || c = '\n' || c = '\r' || c.toNat = 0xb || c.toNat = 0xc ||
  c.toNat = 0xa0 || c.toNat = 0x1680 || (0x2000 ≤ c.toNat && c.toNat ≤ 0x200a) ||
  c.toNat = 0x2028 || c.toNat = 0x2029 || c.toNat = 0x202f || c.toNat = 0x205f ||
  c.toNat = 0x3000 || c.toNat = 0xfeff

/-- JS regex `.` (no `/s` flag): anything but a line terminator. -/
def dotChar (c : Char) : Bool :=
  !(c = '\n' || c = '\r' || c.toNat = 0x2028 || c.toNat = 0x2029)

/-- The class `[:\s]` appearing after every field keyword. -/
def colonWs (c : Char) : Bool := c = ':' || jsWsChar c

/-- `[A-Za-z]`. -/
def asciiAlpha (c : Char) : Bool := ('a' ≤ c && c ≤ 'z') || ('A' ≤ c && c ≤ 'Z')

/-- `[A-Z]`. -/
def upperAlpha (c : Char) : Bool := 'A' ≤ c && c ≤ 'Z'

/-- `[a-fA-F0-9]`. -/
def hexChar (c : Char) : Bool :=
  ('0' ≤ c && c ≤ '9') || ('a' ≤ c && c ≤ 'f') || ('A' ≤ c && c ≤ 'F')

/-! ## A backtracking regex engine

Models the exact feature subset used by the patterns in `routes.ts`:
ordered alternation, greedy and lazy bounded/unbounded repetition, one
capture group, positive/negative lookahead, word boundary `\b` and `$`.
`String.prototype.match` (without `/g`) is leftmost match: positions are
tried left to right and the first position admitting a match wins. -/

inductive Re where
  | eps : Re
  | cls : (Char → Bool) → Re
  | cat : Re → Re → Re
  | alt : Re → Re → Re
  /-- `rep r lo hi lz`: between `lo` and `hi` (`none` = unbounded)
  repetitions of `r`; `lz = true` for a lazy quantifier. -/
  | rep : Re → Nat → Option Nat → Bool → Re
  | group : Nat → Re → Re
  /-- `look neg r`: zero-width lookahead, negative when `neg`. -/
  | look : Bool → Re → Re
  | wb : Re
  | eos : Re

/-- Captured groups: group index paired with the captured characters. -/
abbrev Caps := List (Nat × List Char)

/-- One backtracking step.  State is the previous character (for `\b`), the
remaining input and the captures; `k` is the success continuation.  `fuel`
bounds the depth of the search and is chosen large enough by `reSearch`. -/
def Re.mrun : Nat → Re → Option Char → List Char → Caps →
    (Option Char → List Char → Caps → Option (Option Char × List Char × Caps)) →
    Option (Option Char × List Char × Caps)
  | 0, _, _, _, _, _ => none
  | fuel + 1, r, prev, rest, caps, k =>
    match r with
    | .eps => k prev rest caps
    | .cls p =>
      match rest with
      | [] => none
      | c :: rs => if p c then k (some c) rs caps else none
    | .cat r1 r2 =>
      Re.mrun fuel r1 prev rest caps fun p1 rs1 cs1 => Re.mrun fuel r2 p1 rs1 cs1 k
    | .alt r1 r2 =>
      match Re.mrun fuel r1 prev rest caps k with
      | some res => some res
      | none => Re.mrun fuel r2 prev rest caps k
    | .rep r1 lo hi lz =>
      if lo > 0 then
        Re.mrun fuel r1 prev rest caps fun p1 rs1 cs1 =>
          Re.mrun fuel (.rep r1 (lo - 1) (hi.map (· - 1)) lz) p1 rs1 cs1 k
      else if hi = some 0 then
        k prev rest caps
      else
        let step := Re.mrun fuel r1 prev rest caps fun p1 rs1 cs1 =>
          if rs1.length = rest.length then none
          else Re.mrun fuel (.rep r1 0 (hi.map (· - 1)) lz) p1 rs1 cs1 k
        if lz then
          match k prev rest caps with
          | some res => some res
          | none => step
        else
          match step with
          | some res => some res
          | none => k prev rest caps
    | .group n r1 =>
      Re.mrun fuel r1 prev rest caps fun p1 rs1 cs1 =>
        k p1 rs1 ((n, rest.take (rest.length - rs1.length)) :: cs1)
    | .look neg r1 =>
      let ok := (Re.mrun fuel r1 prev rest caps fun p1 rs1 cs1 => some (p1, rs1, cs1)).isSome
      if ok ≠ neg then k prev rest caps else none
    | .wb =>
      let a := match prev with | none => false | some c => wordChar c
      let b := match rest with | [] => false | c :: _ => wordChar c
      if a ≠ b then k prev rest caps else none
    | .eos =>
      match rest with
      | [] => k prev rest caps
      | _ :: _ => none

/-- Attempt a match of `r` anchored at the current position. -/
def Re.tryAt (r : Re) (fuel : Nat) (prev : Option Char) (rest : List Char) :
    Option (List Char × Caps) :=
  match Re.mrun fuel r prev rest [] (fun p rs cs => some (p, rs, cs)) with
  | some (_, rs, cs) => some (rest.take (rest.length - rs.length), cs)
  | none => none

/-- Try to match `r` at successive start positions, leftmost first; returns
the whole match and the captures, like a non-global JS `match`. -/
def Re.searchAux (r : Re) (fuel : Nat) : Option Char → List Char → Option (List Char × Caps)
  | prev, [] => Re.tryAt r fuel prev []
  | prev, c :: rs =>
    match Re.tryAt r fuel prev (c :: rs) with
    | some res => some res
    | none => Re.searchAux r fuel (some c) rs

/-- First capture group recorded in `caps`, if the group participated. -/
def capGroup (caps : Caps) (n : Nat) : Option (List Char) :=
  (caps.find? fun p => p.1 = n).map (·.2)

/-- `s.match(r)` for a non-global regex: `none` when there is no match,
otherwise the whole matched text (entry `[0]`) and capture group 1. -/
def jsMatch (r : Re) (s : String) : Option (String × Option String) :=
  (Re.searchAux r (2 * s.length + 400) none s.data).map fun m =>
    (String.mk m.1, (capGroup m.2 1).map String.mk)

/-- Sequence a list of regex pieces. -/
def Re.seq (l : List Re) : Re := l.foldr .cat .eps

/-- Ordered alternation of a non-empty list (first alternative preferred). -/
def Re.alts : List Re → Re
  | [] => .eps
  | [r] => r
  | r :: rs => .alt r (Re.alts rs)

/-- Case-sensitive literal character. -/
def chr (c : Char) : Re := .cls fun x => x = c

/-- Case-insensitive literal character (for `/i` regexes). -/
def ichr (c : Char) : Re := .cls fun x => x.toLower = c.toLower

/-- Case-sensitive literal string. -/
def cstr (s : String) : Re := Re.seq (s.data.map chr)

/-- Case-insensitive literal string. -/
def istr (s : String) : Re := Re.seq (s.data.map ichr)

/-! ## String helpers mirroring the JS methods used in `routes.ts` -/

/-- `s.toLowerCase()` (ASCII, as used by the parser's keyword check). -/
def sToLower (s : String) : String := String.mk (s.data.map Char.toLower)

/-- `s.toUpperCase()` (ASCII). -/
def sToUpper (s : String) : String := String.mk (s.data.map Char.toUpper)

/-- `s.startsWith(p)`. -/
def sStarts (s p : String) : Bool := p.data.isPrefixOf s.data

/-- `s.slice(n)`. -/
def sDrop (s : String) (n : Nat) : String := String.mk (s.data.drop n)

/-- `haystack.includes(pat)` on character lists. -/
def subIncludes (pat : List Char) : List Char → Bool
  | [] => pat.isEmpty
  | c :: rest => pat.isPrefixOf (c :: rest) || subIncludes pat rest

/-- `s.includes(pat)`. -/
def sIncludes (s pat : String) : Bool := subIncludes pat.data s.data

/-- `s.trim()` with the JS whitespace set. -/
def jsTrim (s : String) : String :=
  String.mk (((s.data.dropWhile jsWsChar).reverse.dropWhile jsWsChar).reverse)

/-- `s.replace(/\s+/g, " ")`: collapse every whitespace run to one space. -/
def collapseWsAux : Bool → List Char → List Char
  | _, [] => []
  | inWs, c :: rest =>
    if jsWsChar c then
      if inWs then collapseWsAux true rest
      else ' ' :: collapseWsAux true rest
    else c :: collapseWsAux false rest

/-- `s.replace(/\s+/g, " ")`. -/
def collapseWs (s : String) : String := String.mk (collapseWsAux false s.data)

/-! ## The regexes of `parseDeployMessage` (`routes.ts` lines 151–205) -/

/-- `/\bname[:\s]+([^\n,;]+?)(?=\s+(?:symbol|ticker|x\s|twitter|website|wallet|image|description)|$)/i` -/
def nameRe1 : Re :=
  Re.seq [.wb, istr "name", .rep (.cls colonWs) 1 none false,
    .group 1 (.rep (.cls fun c => !(c = '\n' || c = ',' || c = ';')) 1 none true),
    .look false (.alt
      (.cat (.rep (.cls jsWsChar) 1 none false)
        (Re.alts [istr "symbol", istr "ticker", .cat (ichr 'x') (.cls jsWsChar),
          istr "twitter", istr "website", istr "wallet", istr "image", istr "description"]))
      .eos)]

/-- `/\btoken\s+(?:name[:\s]+)?([A-Za-z][A-Za-z0-9\s]{1,30}?)(?=\s+(?:symbol|ticker|$))/i` -/
def nameRe2 : Re :=
  Re.seq [.wb, istr "token", .rep (.cls jsWsChar) 1 none false,
    .rep (.cat (istr "name") (.rep (.cls colonWs) 1 none false)) 0 (some 1) false,
    .group 1 (.cat (.cls asciiAlpha)
      (.rep (.cls fun c => asciiAlpha c || ('0' ≤ c && c ≤ '9') || jsWsChar c) 1 (some 30) true)),
    .look false (.cat (.rep (.cls jsWsChar) 1 none false)
      (Re.alts [istr "symbol", istr "ticker", .eos]))]

/-- `/\b(?:symbol|ticker)[:\s]+([A-Za-z]{2,10})/i` -/
def symbolRe1 : Re :=
  Re.seq [.wb, .alt (istr "symbol") (istr "ticker"), .rep (.cls colonWs) 1 none false,
    .group 1 (.rep (.cls asciiAlpha) 2 (some 10) false)]

/-- `/\b([A-Z]{2,10})\b(?=\s|$)(?!.*\b(?:symbol|ticker)\b)/` (case-sensitive) -/
def symbolRe2 : Re :=
  Re.seq [.wb, .group 1 (.rep (.cls upperAlpha) 2 (some 10) false), .wb,
    .look false (.alt (.cls jsWsChar) .eos),
    .look true (Re.seq [.rep (.cls dotChar) 0 none false, .wb,
      .alt (cstr "symbol") (cstr "ticker"), .wb])]

/-- `/\b(0x[a-fA-F0-9]{40})\b/` -/
def walletRe : Re :=
  Re.seq [.wb, .group 1 (Re.seq [chr '0', chr 'x', .rep (.cls hexChar) 40 (some 40) false]), .wb]

/-- `/\bwebsite[:\s]+(\S+)/i` -/
def websiteRe1 : Re :=
  Re.seq [.wb, istr "website", .rep (.cls colonWs) 1 none false,
    .group 1 (.rep (.cls fun c => !jsWsChar c) 1 none false)]

/-- `/\bweb[:\s]+(\S+)/i` -/
def websiteRe2 : Re :=
  Re.seq [.wb, istr "web", .rep (.cls colonWs) 1 none false,
    .group 1 (.rep (.cls fun c => !jsWsChar c) 1 none false)]

/-- `/\b(?:twitter|x)[:\s]+(https?:\/\/[^\s]+)/i` -/
def twitterRe1 : Re :=
  Re.seq [.wb, .alt (istr "twitter") (ichr 'x'), .rep (.cls colonWs) 1 none false,
    .group 1 (Re.seq [istr "http", .rep (ichr 's') 0 (some 1) false, istr "://",
      .rep (.cls fun c => !jsWsChar c) 1 none false])]

/-- `/\b(?:twitter|x)[:\s]+(@?[^\s\n,;]+)/i` -/
def twitterRe2 : Re :=
  Re.seq [.wb, .alt (istr "twitter") (ichr 'x'), .rep (.cls colonWs) 1 none false,
    .group 1 (.cat (.rep (chr '@') 0 (some 1) false)
      (.rep (.cls fun c => !(jsWsChar c || c = '\n' || c = ',' || c = ';')) 1 none false))]

/-- `/\b(?:description|desc)[:\s]+([^\n]+)/i` -/
def descRe : Re :=
  Re.seq [.wb, .alt (istr "description") (istr "desc"), .rep (.cls colonWs) 1 none false,
    .group 1 (.rep (.cls fun c => c ≠ '\n') 1 none false)]

/-- `/\bimage[:\s]+(\S+)/i` -/
def imageRe1 : Re :=
  Re.seq [.wb, istr "image", .rep (.cls colonWs) 1 none false,
    .group 1 (.rep (.cls fun c => !jsWsChar c) 1 none false)]

/-- `/\bipfs:\/\/\S+/i` (no capture group) -/
def imageRe2 : Re :=
  Re.seq [.wb, istr "ipfs://", .rep (.cls fun c => !jsWsChar c) 1 none false]

/-- `/0x[a-f0-9]{40}/i` used twice in `generateFallbackResponse`. -/
def addrRe : Re :=
  Re.seq [ichr '0', ichr 'x',
    .rep (.cls fun c => ('0' ≤ c && c ≤ '9') || ('a' ≤ c.toLower && c.toLower ≤ 'f')) 40 (some 40) false]

/-! ## `parseDeployMessage` (`routes.ts` lines 141–205) -/

/-- The transient parameter record built by the parser; a field is `none`
when the corresponding JS property was never assigned. -/
structure DeployParams where
  name : Option String := none
  symbol : Option String := none
  wallet : Option String := none
  websiteUrl : Option String := none
  twitterUrl : Option String := none
  description : Option String := none
  imageUrl : Option String := none
  deriving Repr, DecidableEq

/-- Shallow embedding of `parseDeployMessage`. -/
def parseDeployMessage (text : String) : Option DeployParams :=
  let lower := sToLower text
  if !(sIncludes lower "deploy" || sIncludes lower "launch" || sIncludes lower "create token") then
    none
  else
    let nameMatch := (jsMatch nameRe1 text).orElse fun _ => jsMatch nameRe2 text
    let name := nameMatch.map fun m => collapseWs (jsTrim (m.2.getD ""))
    let symbolMatch := (jsMatch symbolRe1 text).orElse fun _ => jsMatch symbolRe2 text
    let symbol := symbolMatch.map fun m => sToUpper (jsTrim (m.2.getD ""))
    let walletM := jsMatch walletRe text
    let wallet := walletM.map fun m => m.2.getD ""
    let websiteMatch := (jsMatch websiteRe1 text).orElse fun _ => jsMatch websiteRe2 text
    let websiteUrl := websiteMatch.map fun m =>
      let url := jsTrim (m.2.getD "")
      if !sStarts url "http" then "https://" ++ url else url
    let twitterMatch := (jsMatch twitterRe1 text).orElse fun _ => jsMatch twitterRe2 text
    let twitterUrl := twitterMatch.map fun m =>
      let url := jsTrim (m.2.getD "")
      if !sStarts url "http" && sStarts url "@" then "https://x.com/" ++ sDrop url 1
      else if !sStarts url "http" then "https://x.com/" ++ url
      else url
    let descMatch := jsMatch descRe text
    let description := descMatch.map fun m => jsTrim (m.2.getD "")
    let imageMatch := (jsMatch imageRe1 text).orElse fun _ => jsMatch imageRe2 text
    let imageUrl := imageMatch.map fun m =>
      match m.2 with
      | some g => if g ≠ "" then g else m.1
      | none => m.1
    let params : DeployParams :=
      { name, symbol, wallet, websiteUrl, twitterUrl, description, imageUrl }
    if truthyS params.name || truthyS params.symbol then some params else none

/-! ## The `/api/chat` deploy gate (`routes.ts` lines 487–524)

`chatDeployDispatchWallet message userWallet` is the wallet string the chat
route hands to `deployTokenViaSDK`, or `none` when the route does not reach
the dispatch (not a deploy request, name/symbol missing, or the
ask-for-wallet reply was sent instead). -/

/-- `const walletToUse = deployParams.wallet || userWallet || ""`. -/
def chatWalletToUse (deployParams : DeployParams) (userWallet : String) : String :=
  jsOrStr (jsOrStr (deployParams.wallet.getD "") userWallet) ""

def chatDeployDispatchWallet (message userWallet : String) : Option String :=
  match parseDeployMessage message with
  | none => none
  | some deployParams =>
    if truthyS deployParams.name && truthyS deployParams.symbol then
      if chatWalletToUse deployParams userWallet = "" ||
          !sStarts (chatWalletToUse deployParams userWallet) "0x" then none
      else some (chatWalletToUse deployParams userWallet)
    else none

/-! ## `deployTokenViaSDK` (`routes.ts` lines 207–257) -/

/-- One entry of the `rewards.recipients` list passed to `clanker.deploy`. -/
structure RewardRecipient where
  admin : String
  recipient : String
  bps : Nat
  token : String
  deriving Repr, DecidableEq

/-- The argument record built for the single `clanker.deploy` call. -/
structure SdkDeployCall where
  name : String
  symbol : String
  tokenAdmin : String
  image : String
  description : String
  socialMediaUrls : List (String × String)
  auditUrls : List String
  ctxInterface : String
  ctxPlatform : String
  ctxMessageId : String
  ctxId : String
  recipients : List RewardRecipient
  deriving Repr, DecidableEq

/-- Behaviour of the external `clanker.deploy` call: it either throws (with
an optional `err.message`) or resolves with `{ txHash, error }`. -/
inductive SdkBehavior where
  | throws : Option String → SdkBehavior
  | resolves : Option String → Option String → SdkBehavior
  deriving Repr, DecidableEq

/-- The result value of `deployTokenViaSDK`. -/
structure DeployResult where
  success : Bool
  txHash : Option String := none
  error : Option String := none
  deriving Repr, DecidableEq

/-- Outcome of the (fire-and-forget) `waitForTransaction()` confirmation. -/
inductive ConfirmOutcome where
  | confirmed
  | failed : String → ConfirmOutcome
  deriving Repr, DecidableEq

/-- Trace of one `deployTokenViaSDK` invocation: its returned value, the SDK
call it made (if any), and whether the confirmation wait was started. -/
structure DeployTrace where
  result : DeployResult
  sdkCall : Option SdkDeployCall := none
  confirmationStarted : Bool := false
  deriving Repr, DecidableEq

/-- Default image used when `params.imageUrl` is falsy. -/
def DEFAULT_TOKEN_IMAGE : String :=
  "ipfs://bafybeigdyrzt5sfp7udm7hu76uh7y26nf3efuylqabf3oclgtqy55fbzdi"

/-- Shallow embedding of `deployTokenViaSDK`.  `configured` is
`getViemClients() !== null` (the signing key is set and usable);
`agentWallet` is the startup-derived `AGENT_WALLET_ADDRESS`; `sdk` is the
behaviour of the external deploy call; `confirm` is the outcome of the
confirmation wait, which the source discards
(`waitForTransaction().catch(() => {})`). -/
def deployTokenViaSDK (configured : Bool) (agentWallet : String) (params : DeployParams)
    (sdk : SdkBehavior) (confirm : ConfirmOutcome) : DeployTrace :=
  if !configured then
    { result := { success := false,
                  error := some "Server wallet not configured. Add CONWAY_WALLET_PRIVATE_KEY." } }
  else if !truthyS params.name || !truthyS params.symbol || !truthyS params.wallet then
    { result := { success := false,
                  error := some "Name, symbol, and wallet address are required." } }
  else
    let tokenAdmin := params.wallet.getD ""
    let socialMediaUrls :=
      (if truthyS params.websiteUrl then [("website", params.websiteUrl.getD "")] else []) ++
      (if truthyS params.twitterUrl then [("x", params.twitterUrl.getD "")] else [])
    let call : SdkDeployCall :=
      { name := params.name.getD ""
        symbol := params.symbol.getD ""
        tokenAdmin
        image := jsOrOpt params.imageUrl DEFAULT_TOKEN_IMAGE
        description := jsOrOpt params.description
          (params.name.getD "" ++ " — deployed via ConwayPad")
        socialMediaUrls
        auditUrls := []
        ctxInterface := "ConwayPad"
        ctxPlatform := "ConwayPad"
        ctxMessageId := "1"
        ctxId := "1"
        recipients :=
          [{ admin := tokenAdmin, recipient := tokenAdmin, bps := 9000, token := "Both" },
           { admin := agentWallet, recipient := agentWallet, bps := 1000, token := "Both" }] }
    match sdk with
    | .throws m =>
      { result := { success := false, error := some (jsOrOpt m "Deployment failed") }
        sdkCall := some call }
    | .resolves txHash err =>
      if truthyS err then
        { result := { success := false, error := err }, sdkCall := some call }
      else
        -- the confirmation wait is fired but its outcome `confirm` is unused
        { result := { success := true, txHash }, sdkCall := some call,
          confirmationStarted := true }

/-! ## `callConwayAI` and the x402 payment handshake (`routes.ts` lines 123–137, 259–401) -/

/-- A chat message forwarded to the inference endpoint. -/
structure AiMsg where
  role : String
  content : String
  deriving Repr, DecidableEq

def CONWAY_MODEL : String := "gpt-5-mini"

def SYSTEM_PROMPT : String :=
  "You are ConwayPad AI, a helpful assistant for the ConwayPad token launch platform on Base blockchain.\n\nConwayPad uses Clanker infrastructure to deploy ERC-20 tokens on Base with:\n- Automatic Uniswap V3 liquidity pools (permanently locked)\n- Fee split: 90% of LP fees go to the token creator, 10% to ConwayPad\n- Token creator becomes \"tokenAdmin\" (can manage governance)\n- Deployer is the ConwayPad agent wallet (on behalf of creator)\n\nYou can help users with:\n1. **Deploying tokens** - Parse deploy requests and execute deployments\n2. **Checking tokens** - Look up token market caps, prices, trading data\n3. **Platform questions** - Explain how ConwayPad/Clanker works\n4. **General crypto questions** - Base blockchain, Uniswap, DexScreener, etc.\n\nWhen a user wants to deploy a token, they should provide:\n- Token Name (required)\n- Symbol/ticker (required, 2-10 letters)\n- Wallet address (required, their 0x address to be set as tokenAdmin)\n- Website URL (optional)\n- X URL (optional)\n- Description (optional)\n- Image URL (optional, IPFS or HTTPS)\n\nAlways be concise, helpful, and accurate. Format numbers with commas and dollar signs where appropriate."

/-- The JSON body `bodyStr` built once per turn and reused verbatim for the
x402 retry. -/
structure ConwayBody where
  model : String
  messages : List AiMsg
  maxTokens : Nat
  stream : Bool
  deriving Repr, DecidableEq

/-- `JSON.stringify({model, messages: [system, ...messages], max_tokens, stream})`. -/
def conwayBody (messages : List AiMsg) : ConwayBody :=
  { model := CONWAY_MODEL
    messages := { role := "system", content := SYSTEM_PROMPT } :: messages
    maxTokens := 2048
    stream := true }

/-- One HTTP POST to the inference endpoint: the shared body plus the
optional `X-PAYMENT` header. -/
structure ConwayRequest where
  body : ConwayBody
  payment : Option String
  deriving Repr, DecidableEq

/-- Behaviour of one `httpsPostStream` call: the request promise either
rejects (network error, with `err.message`) or resolves with a status. -/
inductive NetOutcome where
  | raised : Option String → NetOutcome
  | resp : Nat → NetOutcome
  deriving Repr, DecidableEq

/-- An x402 payment option from the 402 body's `accepts[]` (`network` in
CAIP-2 form plus the remaining fields, carried opaquely). -/
structure PaymentReq where
  network : String
  payload : List (String × String)
  deriving Repr, DecidableEq

/-- What parsing the 402 response body yields. -/
inductive Parse402 where
  | badJson
  | noAccepts
  | accepts : PaymentReq → Nat → Parse402
  deriving Repr, DecidableEq

/-- The CAIP-2 → x402 network-name table. -/
def CAIP2_TO_X402_NETWORK : List (String × String) :=
  [("eip155:8453", "base"), ("eip155:84532", "base-sepolia"),
   ("eip155:137", "polygon"), ("eip155:80002", "polygon-amoy"),
   ("eip155:43114", "avalanche"), ("eip155:43113", "avalanche-fuji")]

/-- `{...req, network: CAIP2_TO_X402_NETWORK[network] || network}`. -/
def normalizePaymentRequirements (req : PaymentReq) : PaymentReq :=
  let network := req.network
  { req with
    network := jsOrOpt ((CAIP2_TO_X402_NETWORK.find? fun p => p.1 = network).map (·.2)) network }

/-- How the chat turn ends for the caller: the stream finished (`onDone`) or
an error tag was delivered (`onError`). -/
inductive ChatOutcome where
  | done
  | errored : String → ChatOutcome
  deriving Repr, DecidableEq

/-- Trace of one `callConwayAI` invocation: the requests actually sent to
the inference endpoint, in order, and the terminal outcome. -/
structure ConwayTrace where
  requests : List ConwayRequest
  outcome : ChatOutcome
  deriving Repr, DecidableEq

/-- Shallow embedding of `callConwayAI`.  `configured` is
`getViemClients() !== null`; `step1`/`step2` are the behaviours of the two
possible `httpsPostStream` calls; `parse402` is what `JSON.parse` makes of
the 402 body; `sign` is `x402CreatePaymentHeader` (applied to the
normalized first accepted option); `rejectDetail` is
`j.detail || j.error || j.message` extracted from a rejection body.  SSE
chunk forwarding is not modelled; the trace records the requests sent and
the terminal outcome of the turn. -/
def callConwayAI (configured : Bool) (messages : List AiMsg) (step1 : NetOutcome)
    (parse402 : Parse402) (sign : PaymentReq → Nat → Except String String)
    (step2 : NetOutcome) (rejectDetail : Option String) : ConwayTrace :=
  if !configured then
    { requests := [], outcome := .errored "agent_wallet_missing" }
  else
    let bodyStr := conwayBody messages
    let req1 : ConwayRequest := { body := bodyStr, payment := none }
    match step1 with
    | .raised m => { requests := [req1], outcome := .errored (jsOrOpt m "Network error") }
    | .resp status =>
      if status = 200 then
        { requests := [req1], outcome := .done }
      else if status ≠ 402 then
        { requests := [req1], outcome := .errored ("Conway error HTTP " ++ toString status) }
      else
        match parse402 with
        | .badJson => { requests := [req1], outcome := .errored "x402_parse_error" }
        | .noAccepts => { requests := [req1], outcome := .errored "x402_no_accepts" }
        | .accepts first ver =>
          match sign (normalizePaymentRequirements first) ver with
          | .error _ => { requests := [req1], outcome := .errored "x402_sign_error" }
          | .ok paymentHeader =>
            let req2 : ConwayRequest := { body := bodyStr, payment := some paymentHeader }
            match step2 with
            | .raised m =>
              { requests := [req1, req2], outcome := .errored (jsOrOpt m "Network error") }
            | .resp status2 =>
              if status2 = 200 then
                { requests := [req1, req2], outcome := .done }
              else
                { requests := [req1, req2],
                  outcome := .errored ("x402_payment_rejected: " ++
                    jsOrOpt rejectDetail ("HTTP " ++ toString status2)) }

/-! ## `normalizeToken` (`conway.ts` lines 62–80)

Token records arriving from the external API are loosely typed, so they are
modelled as JavaScript values: an object is a list of key/value pairs in
property order (keys unique, as produced by `JSON.parse`). -/

inductive JsVal where
  | vUndefined : JsVal
  | vNull : JsVal
  | vStr : String → JsVal
  | vNum : Int → JsVal
  | vBool : Bool → JsVal
  | vObj : List (String × JsVal) → JsVal

/-- JS truthiness. -/
def jsTruthy : JsVal → Bool
  | .vUndefined => false
  | .vNull => false
  | .vStr s => s ≠ ""
  | .vNum n => n ≠ 0
  | .vBool b => b
  | .vObj _ => true

/-- JS `a || b`. -/
def jsOr (a b : JsVal) : JsVal := if jsTruthy a then a else b

/-- Property read on an object (first binding wins; missing → `undefined`). -/
def getKey (o : List (String × JsVal)) (k : String) : JsVal :=
  match o.find? fun p => p.1 = k with
  | some p => p.2
  | none => .vUndefined

/-- Property read on an arbitrary value: on a non-object (and non-nullish)
value a property access yields `undefined`. -/
def getProp (v : JsVal) (k : String) : JsVal :=
  match v with
  | .vObj o => getKey o k
  | _ => .vUndefined

/-- Optional chaining `v?.k`: `undefined` when `v` is nullish. -/
def getOptChain (v : JsVal) (k : String) : JsVal :=
  match v with
  | .vUndefined => .vUndefined
  | .vNull => .vUndefined
  | w => getProp w k

/-- Assignment of one property in an object literal spread: an existing key
keeps its position and is overwritten, a new key is appended (object keys
are unique, as `JSON.parse` produces them). -/
def setKey (k : String) (v : JsVal) : List (String × JsVal) → List (String × JsVal)
  | [] => [(k, v)]
  | p :: rest => if p.1 = k then (k, v) :: rest else p :: setKey k v rest

/-- Shallow embedding of `normalizeToken` from the client helper library:
`{...t, address, name, symbol, deployDate, deployerWallet, imgUrl,
marketCap, price, priceChange24h, volume24h, chainId, platform}`. -/
def normalizeToken (t : List (String × JsVal)) : List (String × JsVal) :=
  let market := jsOr (getOptChain (getKey t "related") "market") (.vObj [])
  setKey "platform" (jsOr (getOptChain (getKey t "social_context") "platform") (.vStr "")) <|
  setKey "chainId" (jsOr (getKey t "chain_id") (.vNum 8453)) <|
  setKey "volume24h" (jsOr (getProp market "volume24h") (.vNum 0)) <|
  setKey "priceChange24h" (jsOr (getProp market "priceChange24h") (.vNum 0)) <|
  setKey "price" (jsOr (getProp market "price") (jsOr (getKey t "price") (.vNum 0))) <|
  setKey "marketCap" (jsOr (getProp market "marketCap") (jsOr (getKey t "market_cap") (.vNum 0))) <|
  setKey "imgUrl" (jsOr (getKey t "img_url") (jsOr (getKey t "image") (.vStr ""))) <|
  setKey "deployerWallet" (jsOr (getKey t "msg_sender")
    (jsOr (getKey t "deployer") (jsOr (getKey t "deployerWallet") (.vStr "")))) <|
  setKey "deployDate" (jsOr (getKey t "deployed_at")
    (jsOr (getKey t "created_at") (jsOr (getKey t "deployDate") (.vStr "")))) <|
  setKey "symbol" (jsOr (getKey t "symbol") (.vStr "?")) <|
  setKey "name" (jsOr (getKey t "name") (.vStr "Unknown")) <|
  setKey "address" (jsOr (getKey t "contract_address") (jsOr (getKey t "address") (.vStr ""))) t

/-- The canonical output fields `normalizeToken` writes. -/
def canonicalFields : List String :=
  ["address", "name", "symbol", "deployDate", "deployerWallet", "imgUrl",
   "marketCap", "price", "priceChange24h", "volume24h", "chainId", "platform"]

/-- Key presence in an object. -/
def hasKey (o : List (String × JsVal)) (k : String) : Bool :=
  o.any fun p => p.1 = k

/-! ## The chat-message store (`PgStorage` in the storage module)

The `chat_messages` table is modelled as a list of rows in insertion order;
`SELECT ... WHERE eq ... ORDER BY createdAt`, `INSERT` and
`DELETE ... WHERE eq` follow SQL semantics over that list. -/

structure ChatMessage where
  sessionId : String
  role : String
  content : String
  createdAt : Nat
  deriving Repr, DecidableEq

/-- Stable insertion into a `createdAt`-sorted list. -/
def insertByCreated (m : ChatMessage) : List ChatMessage → List ChatMessage
  | [] => [m]
  | x :: xs => if x.createdAt ≤ m.createdAt then x :: insertByCreated m xs else m :: x :: xs

/-- `ORDER BY createdAt` as a stable insertion sort. -/
def orderByCreatedAt : List ChatMessage → List ChatMessage
  | [] => []
  | x :: xs => insertByCreated x (orderByCreatedAt xs)

/-- `getChatHistory`: rows of the session, ordered by `createdAt`. -/
def getChatHistory (db : List ChatMessage) (sessionId : String) : List ChatMessage :=
  orderByCreatedAt (db.filter fun m => m.sessionId = sessionId)

/-- `clearChatHistory`: delete the rows of the session. -/
def clearChatHistory (db : List ChatMessage) (sessionId : String) : List ChatMessage :=
  db.filter fun m => !(m.sessionId = sessionId)

/-- `addChatMessage`: insert one row. -/
def addChatMessage (db : List ChatMessage) (m : ChatMessage) : List ChatMessage :=
  db ++ [m]

/-! ## `generateFallbackResponse` (`routes.ts` lines 651–968)

The canned answers, in source order.  `const has = (...words) =>
words.some(w => q.includes(w))` where `q` is the lowercased message. -/

/-- `has(...)` of the fallback generator. -/
def fbHas (q : String) (words : List String) : Bool :=
  words.any fun w => sIncludes q w

def fbGreeting : String :=
  "Hey! I'm ConwayPad AI — your assistant for launching tokens on Base blockchain.\n\nI can help you:\n- **Deploy a token** on Base (type: *Deploy token Name: ... Symbol: ... Wallet: 0x...*)\n- **Answer questions** about Bitcoin, Ethereum, DeFi, NFTs, and much more\n- **Explain** how ConwayPad and Clanker work\n\nWhat can I help you with?"

def fbDeploy : String :=
  String.intercalate "\n"
    ["To deploy a token on ConwayPad, use the following format:",
     "",
     "```",
     "Deploy token",
     "Name: TOKEN NAME",
     "Symbol: SYMBOL",
     "Website: https://yourwebsite.com",
     "X: https://x.com/username",
     "Description: Your token description",
     "Wallet: 0x...your_wallet_address",
     "```",
     "",
     "**Required:** Name, Symbol, and Wallet address (0x...).",
     "",
     "**Automatic fee split:**",
     "- 90% of LP fees → to you (creator)",
     "- 10% of LP fees → to ConwayPad",
     "",
     "A Uniswap V3 liquidity pool is created automatically on Base and locked permanently."]

def fbFees : String :=
  "**ConwayPad Fee Split (90% / 10%):**\n\n- **90%** of LP fees from every trade → directly to your wallet (creator)\n- **10%** of LP fees → to ConwayPad platform\n\nUniswap V3 LP fee is **0.3%** per swap. Fees accumulate automatically and can be claimed anytime at [clanker.world](https://clanker.world)."

def fbPlatform : String :=
  String.intercalate "\n"
    ["**ConwayPad** is a no-code token launch platform on Base blockchain.",
     "",
     "**How it works:**",
     "1. Submit your token details (name, symbol, wallet, etc.)",
     "2. ConwayPad deploys your ERC-20 token via Clanker SDK v4",
     "3. A Uniswap V3 liquidity pool is created automatically (permanently locked)",
     "4. You receive 90% of all LP fees (0.3% per trade)",
     "",
     "**Key features:**",
     "- No coding required",
     "- Instant liquidity from the moment of deployment",
     "- LP fees flow automatically to your wallet",
     "- Token appears on DexScreener and Clanker.world immediately"]

def fbClanker : String :=
  "**Clanker** is an open-source protocol on Base for deploying ERC-20 tokens with automatic Uniswap V3 liquidity pools.\n\nConwayPad uses **Clanker SDK v4** to:\n- Deploy tokens directly from an agent wallet\n- Configure fee splits (90% creator / 10% platform)\n- Lock liquidity permanently\n\nAll deployed tokens can be explored at [clanker.world](https://clanker.world)."

def fbUniswap : String :=
  "ConwayPad tokens automatically receive a **Uniswap V3 liquidity pool on Base**.\n\n- **Liquidity is permanently locked** — no one can withdraw it\n- **0.3% fee** on every swap is split: 90% creator + 10% platform\n- **AMM (Automated Market Maker)** prices tokens based on the pool ratio\n- Trade directly on [Uniswap](https://app.uniswap.org) or [DexScreener](https://dexscreener.com/base)"

def fbDexscreener : String :=
  "**DexScreener** is a real-time analytics platform for DeFi tokens across all chains.\n\nFor tokens deployed on ConwayPad:\n- Check price, volume, and market cap in real time\n- View candlestick charts and transaction history\n- Link format: `https://dexscreener.com/base/[token_address]`\n\nTokens typically appear on DexScreener within a few minutes of deployment."

def fbStats : String :=
  "View full platform statistics on the ConwayPad **Dashboard**.\n\nReal-time data from the Clanker API:\n- Total tokens deployed\n- Total market cap\n- Trading volume\n- Top deployers on the leaderboard"

def fbBitcoin : String :=
  String.intercalate "\n"
    ["**Bitcoin (BTC)** — the world's first and largest cryptocurrency.",
     "",
     "- **Created:** 2009 by the pseudonymous Satoshi Nakamoto",
     "- **Supply:** Capped at 21 million BTC — deflationary by design",
     "- **Consensus:** Proof of Work (PoW) — miners secure the network",
     "- **Block time:** ~10 minutes per block",
     "- **Halving:** Every ~4 years, miner rewards are cut in half",
     "- **Use case:** Digital gold / store of value, peer-to-peer payments",
     "",
     "**Last halving:** April 2024 (reward dropped to 3.125 BTC/block)",
     "",
     "Bitcoin runs on its own blockchain, separate from Ethereum/Base."]

def fbEthereum : String :=
  String.intercalate "\n"
    ["**Ethereum (ETH)** — the largest smart contract blockchain.",
     "",
     "- **Created:** 2015 by Vitalik Buterin and co-founders",
     "- **Consensus:** Proof of Stake (PoS) since The Merge (Sept 2022)",
     "- **Smart contracts:** EVM-compatible, powering DeFi, NFTs, and DAOs",
     "- **Gas fees:** Paid in ETH (Gwei), can be expensive on mainnet",
     "- **L2 ecosystem:** Base, Optimism, Arbitrum, zkSync built on top of Ethereum",
     "",
     "**Base** (where ConwayPad operates) is an Ethereum L2 — Ethereum security with fees under $0.01 per transaction."]

def fbSolana : String :=
  "**Solana (SOL)** — a high-speed Layer 1 blockchain.\n\n- **TPS:** Up to 65,000 transactions per second\n- **Cost:** Very low (< $0.001 per transaction)\n- **Consensus:** Proof of History (PoH) + Proof of Stake\n- **Ecosystem:** Raydium, Jupiter, Magic Eden, Phantom Wallet\n\nConwayPad operates on **Base (Ethereum L2)**, not Solana."

def fbBnb : String :=
  "**BNB Chain (BSC)** — Binance's blockchain.\n\n- **Token:** BNB (Binance Coin)\n- **Consensus:** Proof of Staked Authority (PoSA)\n- **Main DEX:** PancakeSwap\n- **Advantages:** Low fees, large ecosystem\n\nConwayPad operates on **Base**, not BNB Chain."

def fbPolygon : String :=
  "**Polygon (POL)** — Ethereum L2 / sidechain.\n\n- **Token:** POL (formerly MATIC)\n- **Consensus:** Proof of Stake\n- **Speed:** ~65,000 TPS\n- **Cost:** Very low fees\n- **Ecosystem:** QuickSwap, OpenSea, many Web3 games\n\nConwayPad operates on **Base**, not Polygon."

def fbBase : String :=
  "**Base** — Coinbase's Ethereum Layer 2.\n\n- **Chain ID:** 8453\n- **Gas fees:** Typically under $0.01 per transaction\n- **Compatibility:** Fully EVM-compatible (Ethereum smart contracts run on Base)\n- **Security:** Secured by Ethereum mainnet\n- **Ecosystem:** Uniswap V3, Aerodrome, Morpho, ConwayPad\n\nConwayPad deploys all tokens on **Base mainnet**."

def fbLayer2 : String :=
  String.intercalate "\n"
    ["**Layer 2 (L2)** — networks built on top of a Layer 1 blockchain (like Ethereum) for better scalability.",
     "",
     "**Types of L2:**",
     "- **Optimistic Rollups:** Base, Optimism, Arbitrum — fast and cheap",
     "- **ZK Rollups:** zkSync, StarkNet — use zero-knowledge proofs",
     "",
     "**L2 advantages:**",
     "- Gas fees 10x–100x cheaper than Ethereum mainnet",
     "- Higher transaction throughput",
     "- Still inherits Ethereum's security",
     "",
     "ConwayPad operates on **Base** (an Optimistic Rollup by Coinbase)."]

def fbDefi : String :=
  "**DeFi (Decentralized Finance)** — financial services without banks or intermediaries.\n\n**Core components:**\n- **DEX** (Uniswap, Aerodrome) — swap tokens without a broker\n- **Lending** (Aave, Compound) — borrow and lend assets\n- **Yield Farming** — earn rewards by providing liquidity\n- **Stablecoins** (USDC, DAI) — tokens pegged to $1 USD\n\nConwayPad tokens automatically enter Base's DeFi ecosystem through Uniswap V3 on deployment."

def fbNft : String :=
  "**NFT (Non-Fungible Token)** — a unique digital asset on the blockchain.\n\n- **Standard:** ERC-721 (one-of-a-kind) or ERC-1155 (semi-fungible)\n- **Use cases:** Digital art, gaming items, collectibles, event tickets\n- **Marketplaces:** OpenSea, Blur, Magic Eden\n\n**NFT vs Fungible Token:**\n- NFT: Unique, cannot be exchanged 1:1\n- ERC-20 token (like those on ConwayPad): Identical units, divisible\n\nConwayPad focuses on **ERC-20 tokens** (fungible), not NFTs."

def fbWallet : String :=
  "**Crypto Wallet** — stores your private keys to access on-chain assets.\n\n**Popular options:**\n- **MetaMask** — browser extension, supports Base/Ethereum\n- **Coinbase Wallet** — mobile + extension, great for Base\n- **Rainbow** — mobile-first, user-friendly\n- **Hardware wallet** (Ledger, Trezor) — most secure for large holdings\n\n**For ConwayPad:**\nWhen deploying a token, provide your wallet address (0x...) as the *token admin* to receive 90% of LP fees."

def fbKeys : String :=
  "**Wallet Security — IMPORTANT:**\n\n**Private Key / Seed Phrase** is your complete access to your wallet.\n\n**NEVER:**\n- Share your private key or seed phrase with anyone\n- Enter it on a website you don't fully trust\n- Store it in the cloud (Google Drive, email, etc.)\n\n**DO:**\n- Write your seed phrase on physical paper\n- Store it in a secure location (safe)\n- Create multiple backups\n\nAnyone with your seed phrase can drain your wallet completely."

def fbGas : String :=
  "**Gas Fee** — the transaction cost paid to blockchain validators.\n\n**Across chains:**\n- **Ethereum mainnet:** Can be $5–$50+ when congested\n- **Base (ConwayPad):** Typically **< $0.01** per transaction\n- **Solana:** < $0.001\n- **Polygon:** < $0.01\n\nGas is measured in **Gwei** (1 Gwei = 0.000000001 ETH).\n\nToken deployments on ConwayPad use gas from the **ConwayPad agent wallet** — you don't need to pay gas directly."

def fbStablecoin : String :=
  "**Stablecoin** — a token pegged to a stable asset (usually $1 USD).\n\n**Main types:**\n- **USDC** (USD Coin) — fiat-backed, issued by Circle, most used in DeFi\n- **USDT** (Tether) — fiat-backed, highest volume\n- **DAI** — algorithmic / overcollateralized by MakerDAO\n\n**On Base:**\nUSDC Base: `0x833589fCD6eDb6E08f4c7C32D4f71b54bdA02913`\n\nStablecoins are commonly used as the paired asset in Uniswap V3 pools."

def fbStaking : String :=
  "**Staking** — locking tokens to secure a PoS network and earn rewards.\n\n**How it works:**\n1. Lock tokens as collateral\n2. Run a validator node or delegate to one\n3. Receive rewards (typically 3–15% APY)\n\n**Examples:**\n- **Ethereum:** Requires 32 ETH to become a validator\n- **Lido (stETH):** Liquid staking — no 32 ETH minimum\n- **Coinbase cbETH:** Liquid ETH staking\n\nConwayPad uses LP fees (not staking) to reward token creators."

def fbMemecoin : String :=
  "**Memecoins** — tokens based on internet memes, driven by community and hype.\n\n**Famous examples:**\n- **DOGE** (Dogecoin) — the original meme coin, backed by Elon Musk\n- **SHIB** (Shiba Inu) — the \"DOGE killer\", large ecosystem\n- **PEPE** — the Pepe the Frog meme token\n- **BONK** — Solana meme coin\n- **WIF** (dogwifhat) — viral Solana meme\n\nConwayPad lets anyone deploy their own token on Base — memecoin, utility token, or project token."

def fbSmartContract : String :=
  "**Smart Contract** — code that runs automatically on the blockchain when conditions are met.\n\n**Characteristics:**\n- **Immutable:** Cannot be changed after deployment (unless upgradeable)\n- **Trustless:** No intermediaries needed\n- **Transparent:** Anyone can read the code on Etherscan/Basescan\n\n**Programming languages:**\n- **Solidity** — the main language for Ethereum/Base\n- **Vyper** — a safer alternative\n\nAll ERC-20 tokens deployed via ConwayPad are smart contracts on Base."

def fbErc20 : String :=
  "**ERC-20** — the standard for fungible tokens on Ethereum and all EVM-compatible chains.\n\n**Core functions in the contract:**\n- `transfer()` — send tokens\n- `approve()` + `transferFrom()` — allow contracts to move tokens\n- `balanceOf()` — check balance\n- `totalSupply()` — total supply\n\nAll tokens deployed via ConwayPad use the **ERC-20** standard on Base."

def fbWeb3 : String :=
  "**Web3** — the decentralized generation of the internet built on blockchain.\n\n**Web1 → Web2 → Web3:**\n- Web1: Read-only (1990s)\n- Web2: Read-Write, controlled by corporations (Google, Facebook)\n- Web3: Read-Write-Own, controlled by users via blockchain\n\n**Web3 components:**\n- Crypto wallets (digital identity)\n- Smart contracts (business logic)\n- DeFi (finance)\n- NFTs (digital asset ownership)\n- DAOs (decentralized organizations)"

def fbDao : String :=
  "**DAO (Decentralized Autonomous Organization)** — an organization run via smart contracts and on-chain voting.\n\n**How it works:**\n1. Token holders have voting rights\n2. Proposals are submitted on-chain\n3. Voting is done with governance tokens\n4. Results are executed automatically by smart contracts\n\n**DAO examples:** Uniswap, Aave, MakerDAO, Compound\n\nTokens deployed via ConwayPad can serve as governance tokens for a DAO."

def fbYield : String :=
  "**Yield Farming / Liquidity Providing** — supplying liquidity to a DEX in exchange for fee rewards.\n\n**How it works:**\n1. Deposit two tokens into a pool (e.g., TOKEN/ETH)\n2. Receive LP tokens as proof of ownership\n3. Collect fees from every swap in that pool\n\n**Risks:**\n- **Impermanent Loss** — if token prices diverge significantly from deposit time\n- **Smart contract risk** — bugs in the LP contract\n\nConwayPad automatically locks liquidity when a token is deployed."

def fbAirdrop : String :=
  "**Airdrop** — distributing tokens for free to user wallets.\n\n**Types of airdrops:**\n- **Retroactive:** Rewards for early users (e.g., Uniswap, ENS, Arbitrum)\n- **Task-based:** Complete tasks (follow, retweet, etc.) to earn tokens\n- **Holder airdrop:** Hold a specific token to receive a new one\n\n**Tip:** Always verify airdrops from official sources. Many fake airdrops steal wallet access.\n\nConwayPad token creators can distribute tokens to their community via airdrop."

def fbMarketCap : String :=
  "**Market Cap** — the total market value of a token.\n\n**Formula:**\n```\nMarket Cap = Token Price × Circulating Supply\n```\n\n**FDV (Fully Diluted Valuation):**\n```\nFDV = Token Price × Total Supply (including unvested tokens)\n```\n\n**Categories:**\n- **Large cap:** > $10B (Bitcoin, Ethereum)\n- **Mid cap:** $1B–$10B\n- **Small cap:** < $1B\n- **Micro cap:** < $50M (most meme/new tokens)\n\nConwayPad token market caps are visible on the Dashboard and DexScreener."

def fbVolume : String :=
  "**Trading Volume** — the total value of tokens traded over a period.\n\n- **24H Volume** — total transaction value in the last 24 hours\n- High volume = good liquidity, active trader interest\n- Low volume = harder to buy/sell without moving the price\n\n**Relation to LP Fees:**\nHigher 24H volume = more fees collected for the creator (0.3% × volume = daily fee income).\n\nCheck token volume on the ConwayPad Dashboard or DexScreener."

def fbDyor : String :=
  "**DYOR (Do Your Own Research)** — always research thoroughly before investing.\n\n**Checklist for new tokens:**\n- [ ] Check the smart contract on Basescan (is it verified?)\n- [ ] Is liquidity locked? (ConwayPad locks it permanently)\n- [ ] Is the team doxxed or anonymous?\n- [ ] Check holder distribution (whale concentration?)\n- [ ] Is there a security audit?\n- [ ] Is there a whitepaper / roadmap?\n\n**Tools:**\n- Basescan / Etherscan — inspect contracts\n- DexScreener — charts and volume\n- Clanker.world — ConwayPad token info\n\n⚠️ This is not financial advice. Always do your own research before investing."

def fbRugPull : String :=
  "**Rug Pull** — a scam where developers suddenly withdraw liquidity after the price pumps.\n\n**Red flags:**\n- Liquidity not locked (can be withdrawn at any time)\n- Anonymous team with no verifiable info\n- No smart contract audit\n- Honeypot: can buy but cannot sell\n- Ownership concentrated in a few wallets\n\n**ConwayPad vs Rug Pulls:**\nConwayPad tokens are **protected from liquidity rug pulls** because:\n- Liquidity is **permanently locked** in Uniswap V3\n- Developers cannot withdraw LP after deployment\n\n⚠️ Always DYOR on all tokens before investing."

def fbColdWallet : String :=
  "**Cold Wallet vs Hot Wallet:**\n\n**Hot Wallet** (online)\n- MetaMask, Coinbase Wallet, Rainbow\n- Connected to the internet — convenient but higher risk\n- Best for small amounts and frequent transactions\n\n**Cold Wallet** (offline)\n- Ledger, Trezor, SafePal\n- Private key stored offline — much more secure\n- Best for large long-term holdings\n\n**Recommendation:**\n- Small amounts (daily use): hot wallet\n- Large amounts (> $1,000): cold wallet\n- Never store your seed phrase on a computer or in the cloud"

def fbFudFomo : String :=
  "**Crypto Psychology Terms:**\n\n**FUD** (Fear, Uncertainty, Doubt)\n- Negative information that causes panic selling\n- Often spread to manipulate prices\n\n**FOMO** (Fear Of Missing Out)\n- The urge to buy because you fear missing profits\n- Often leads to buying at the peak\n\n**Bull Market** — rising price trend, positive sentiment\n**Bear Market** — falling price trend, negative sentiment\n\nTip: Stay rational. Never make decisions driven by emotion. Always DYOR."

def fbWeth : String :=
  "**WETH (Wrapped ETH)** — the ERC-20 version of ETH.\n\n**Why is WETH needed?**\nETH itself is not an ERC-20 token. WETH is a \"wrapper\" that makes ETH compatible with DeFi smart contracts.\n\n**How to swap:**\n- 1 WETH = 1 ETH (always 1:1)\n- Can be swapped on Uniswap at any time\n\nOn Base, many Uniswap V3 pools use WETH as the paired asset for new tokens."

def fbTokenomics : String :=
  "**Tokenomics** — the economic design behind a token.\n\n**Key components:**\n- **Total Supply** — the maximum number of tokens that will ever exist\n- **Circulating Supply** — tokens currently in circulation\n- **Vesting** — token unlock schedule (usually for team/investors)\n- **Allocation** — distribution: team, investors, community, ecosystem\n- **Burn mechanism** — is there a token burning mechanism?\n\n**Good tokenomics examples:**\n- Non-inflationary supply cap\n- Lock-up period for team/investors\n- Fair distribution to the community\n\nConwayPad tokens use the default supply from Clanker SDK v4."

/-- The wallet-address topic: `q.match(/0x[a-f0-9]{40}/i)?.[0] || ""`
interpolated into the canned answer. -/
def fbAddress (q : String) : String :=
  let addr := jsOrOpt ((jsMatch addrRe q).map fun m => m.1) ""
  "Address " ++ addr ++ " detected!\n\nTo check activity for this wallet:\n- **Basescan:** https://basescan.org/address/" ++ addr ++ "\n- **DexScreener:** https://dexscreener.com/base/" ++ addr ++ "\n\nYou can also use the **Wallet Tracker** on ConwayPad to view all tokens deployed by this wallet via Clanker."

def fbPrice : String :=
  "I don't have access to real-time price data right now.\n\nTo check current prices:\n- **CoinGecko:** https://coingecko.com\n- **CoinMarketCap:** https://coinmarketcap.com\n- **DexScreener** (for Base tokens): https://dexscreener.com/base\n\nConwayPad token price data is available on the Dashboard and Token Explorer pages."

def fbHelp : String :=
  String.intercalate "\n"
    ["**ConwayPad AI** — here's what I can help with:",
     "",
     "**Deploy a Token:**",
     "- Type: *Deploy token Name: MyToken Symbol: MTK Wallet: 0x...*",
     "",
     "**ConwayPad Platform:**",
     "- How to deploy tokens, fee splits, how Clanker works",
     "- Platform statistics, leaderboard",
     "",
     "**Crypto & Web3:**",
     "- Bitcoin, Ethereum, Solana, Base, Layer 2",
     "- DeFi, NFTs, staking, yield farming",
     "- Wallets, gas fees, stablecoins",
     "- Memecoins, tokenomics, DYOR",
     "- Rug pull detection, crypto security",
     "",
     "Try asking: *\"What is DeFi?\"* · *\"How do I deploy a token?\"* · *\"What is an NFT?\"*"]

/-- The `creditNote` appended to the default menu, selected from the error
tag delivered by `callConwayAI`. -/
def fbCreditNote (errCode : Option String) : String :=
  match errCode with
  | some e =>
    if e = "agent_wallet_missing" then
      "\n\n> ⚠️ **Agent wallet not configured.** Set CONWAY_WALLET_PRIVATE_KEY in environment secrets."
    else if e = "x402_sign_error" then
      "\n\n> ⚠️ **x402 payment signing failed.** Ensure the agent wallet has USDC on Base."
    else if sStarts e "x402_" then
      "\n\n> ⚠️ **Conway x402 payment error.** Check the agent wallet's USDC balance on Base."
    else ""
  | none => ""

def fbMenu : String :=
  String.intercalate "\n"
    ["I'm ConwayPad AI — ready to help!",
     "",
     "I can answer questions about:",
     "- **Platform:** deploying tokens, fee splits, how ConwayPad works",
     "- **Blockchain:** Bitcoin, Ethereum, Solana, Base, Layer 2",
     "- **DeFi:** Uniswap, staking, yield farming, liquidity",
     "- **Tokens:** ERC-20, NFTs, memecoins, tokenomics, market cap",
     "- **Security:** wallets, rug pulls, DYOR, cold vs hot wallets",
     "",
     "Try asking something more specific, like:",
     "*\"What is Bitcoin?\"* · *\"How do I deploy a token?\"* · *\"What is DeFi?\"* · *\"What is an NFT?\"*"]

/-- The default (nothing matched) answer: generic menu plus credit note. -/
def fallbackDefault (errCode : Option String) : String :=
  fbMenu ++ fbCreditNote errCode

/-- Shallow embedding of `generateFallbackResponse`, branch for branch in
source order. -/
def generateFallbackResponse (message : String) (errCode : Option String) : String :=
  let q := sToLower message
  if fbHas q ["hello", "hi ", "hey", "how are you", "greetings"] then fbGreeting
  else if fbHas q ["deploy", "launch", "create token", "mint token"] then fbDeploy
  else if fbHas q ["fee", "split", "earn", "reward"] then fbFees
  else if fbHas q ["conwaypad", "how does", "how it work", "what is conway", "platform"] then fbPlatform
  else if fbHas q ["clanker"] then fbClanker
  else if fbHas q ["uniswap", "liquidity", "pool", "amm", "swap"] then fbUniswap
  else if fbHas q ["dexscreener", "dex screener", "chart"] then fbDexscreener
  else if fbHas q ["stat", "total token", "how many", "dashboard"] then fbStats
  else if fbHas q ["bitcoin", "btc", "satoshi nakamoto", "halving"] then fbBitcoin
  else if fbHas q ["ethereum", "ether ", " eth ", "vitalik", "the merge", "evm"] then fbEthereum
  else if fbHas q ["solana", " sol "] then fbSolana
  else if fbHas q ["bnb", "binance smart chain", "bsc", "pancakeswap"] then fbBnb
  else if fbHas q ["polygon", "matic"] then fbPolygon
  else if fbHas q ["base ", "base blockchain", "chain id 8453", "layer 2 base", "coinbase l2"] then fbBase
  else if fbHas q ["layer 2", "l2", "optimism", "arbitrum", "rollup", "zksync"] then fbLayer2
  else if fbHas q ["defi", "decentralized finance"] then fbDefi
  else if fbHas q ["nft", "non-fungible", "non fungible", "opensea", "digital art"] then fbNft
  else if fbHas q ["wallet", "metamask", "coinbase wallet", "rainbow"] then fbWallet
  else if fbHas q ["private key", "seed phrase", "mnemonic", "recovery phrase"] then fbKeys
  else if fbHas q ["gas", "gas fee", "gwei", "transaction fee"] then fbGas
  else if fbHas q ["stablecoin", "usdc", "usdt", "dai", "stable coin"] then fbStablecoin
  else if fbHas q ["staking", "stake", "validator", "proof of stake"] then fbStaking
  else if fbHas q ["memecoin", "meme coin", "doge", "shib", "pepe", "bonk", "wif"] then fbMemecoin
  else if fbHas q ["smart contract", "solidity"] then fbSmartContract
  else if fbHas q ["erc-20", "erc20", "fungible token"] then fbErc20
  else if fbHas q ["web3", "web 3", "blockchain technology"] then fbWeb3
  else if fbHas q ["dao", "decentralized autonomous", "governance", "voting"] then fbDao
  else if fbHas q ["yield farm", "yield farming", "provide liquidity", "lp token", "liquidity provider"] then fbYield
  else if fbHas q ["airdrop", "air drop", "free token"] then fbAirdrop
  else if fbHas q ["market cap", "marketcap", "mcap", "fully diluted"] then fbMarketCap
  else if fbHas q ["volume", "trading volume", "volume 24h"] then fbVolume
  else if fbHas q ["dyor", "do your own research", "research"] then fbDyor
  else if fbHas q ["rug pull", "rugpull", "scam", "honeypot"] then fbRugPull
  else if fbHas q ["cold wallet", "hardware wallet", "ledger", "trezor", "hot wallet"] then fbColdWallet
  else if fbHas q ["fud", "fomo", "fear of missing", "bull run", "bear market"] then fbFudFomo
  else if fbHas q ["weth", "wrapped eth", "wrapped ether"] then fbWeth
  else if fbHas q ["tokenomics", "tokenomic", "supply", "vesting", "allocation"] then fbTokenomics
  else if (jsMatch addrRe q).isSome then fbAddress q
  else if fbHas q ["price", "how much is", "how much does"] then fbPrice
  else if fbHas q ["help", "command", "what can you"] then fbHelp
  else fallbackDefault errCode

/-! ### The fallback knowledge base as an ordered (predicate, responder)
list — the structure §4.5 and the design notes describe: evaluated in
sequence, first match wins, default responder otherwise. -/

/-- Ordered topic list of the fallback knowledge base. -/
def fallbackTopics : List ((String → Bool) × (String → String)) :=
  [(fun q => fbHas q ["hello", "hi ", "hey", "how are you", "greetings"], fun _ => fbGreeting),
   (fun q => fbHas q ["deploy", "launch", "create token", "mint token"], fun _ => fbDeploy),
   (fun q => fbHas q ["fee", "split", "earn", "reward"], fun _ => fbFees),
   (fun q => fbHas q ["conwaypad", "how does", "how it work", "what is conway", "platform"], fun _ => fbPlatform),
   (fun q => fbHas q ["clanker"], fun _ => fbClanker),
   (fun q => fbHas q ["uniswap", "liquidity", "pool", "amm", "swap"], fun _ => fbUniswap),
   (fun q => fbHas q ["dexscreener", "dex screener", "chart"], fun _ => fbDexscreener),
   (fun q => fbHas q ["stat", "total token", "how many", "dashboard"], fun _ => fbStats),
   (fun q => fbHas q ["bitcoin", "btc", "satoshi nakamoto", "halving"], fun _ => fbBitcoin),
   (fun q => fbHas q ["ethereum", "ether ", " eth ", "vitalik", "the merge", "evm"], fun _ => fbEthereum),
   (fun q => fbHas q ["solana", " sol "], fun _ => fbSolana),
   (fun q => fbHas q ["bnb", "binance smart chain", "bsc", "pancakeswap"], fun _ => fbBnb),
   (fun q => fbHas q ["polygon", "matic"], fun _ => fbPolygon),
   (fun q => fbHas q ["base ", "base blockchain", "chain id 8453", "layer 2 base", "coinbase l2"], fun _ => fbBase),
   (fun q => fbHas q ["layer 2", "l2", "optimism", "arbitrum", "rollup", "zksync"], fun _ => fbLayer2),
   (fun q => fbHas q ["defi", "decentralized finance"], fun _ => fbDefi),
   (fun q => fbHas q ["nft", "non-fungible", "non fungible", "opensea", "digital art"], fun _ => fbNft),
   (fun q => fbHas q ["wallet", "metamask", "coinbase wallet", "rainbow"], fun _ => fbWallet),
   (fun q => fbHas q ["private key", "seed phrase", "mnemonic", "recovery phrase"], fun _ => fbKeys),
   (fun q => fbHas q ["gas", "gas fee", "gwei", "transaction fee"], fun _ => fbGas),
   (fun q => fbHas q ["stablecoin", "usdc", "usdt", "dai", "stable coin"], fun _ => fbStablecoin),
   (fun q => fbHas q ["staking", "stake", "validator", "proof of stake"], fun _ => fbStaking),
   (fun q => fbHas q ["memecoin", "meme coin", "doge", "shib", "pepe", "bonk", "wif"], fun _ => fbMemecoin),
   (fun q => fbHas q ["smart contract", "solidity"], fun _ => fbSmartContract),
   (fun q => fbHas q ["erc-20", "erc20", "fungible token"], fun _ => fbErc20),
   (fun q => fbHas q ["web3", "web 3", "blockchain technology"], fun _ => fbWeb3),
   (fun q => fbHas q ["dao", "decentralized autonomous", "governance", "voting"], fun _ => fbDao),
   (fun q => fbHas q ["yield farm", "yield farming", "provide liquidity", "lp token", "liquidity provider"], fun _ => fbYield),
   (fun q => fbHas q ["airdrop", "air drop", "free token"], fun _ => fbAirdrop),
   (fun q => fbHas q ["market cap", "marketcap", "mcap", "fully diluted"], fun _ => fbMarketCap),
   (fun q => fbHas q ["volume", "trading volume", "volume 24h"], fun _ => fbVolume),
   (fun q => fbHas q ["dyor", "do your own research", "research"], fun _ => fbDyor),
   (fun q => fbHas q ["rug pull", "rugpull", "scam", "honeypot"], fun _ => fbRugPull),
   (fun q => fbHas q ["cold wallet", "hardware wallet", "ledger", "trezor", "hot wallet"], fun _ => fbColdWallet),
   (fun q => fbHas q ["fud", "fomo", "fear of missing", "bull run", "bear market"], fun _ => fbFudFomo),
   (fun q => fbHas q ["weth", "wrapped eth", "wrapped ether"], fun _ => fbWeth),
   (fun q => fbHas q ["tokenomics", "tokenomic", "supply", "vesting", "allocation"], fun _ => fbTokenomics),
   (fun q => (jsMatch addrRe q).isSome, fun q => fbAddress q),
   (fun q => fbHas q ["price", "how much is", "how much does"], fun _ => fbPrice),
   (fun q => fbHas q ["help", "command", "what can you"], fun _ => fbHelp)]

/-- Evaluate an ordered (predicate, responder) list: first match wins,
default responder when nothing matches. -/
def fallbackRun : List ((String → Bool) × (String → String)) → String → Option String → String
  | [], _, e => fallbackDefault e
  | (p, r) :: rest, q, e => if p q then r q else fallbackRun rest q e

/-! ## Helper lemmas -/

theorem getKey_nil (k : String) : getKey [] k = .vUndefined := rfl

theorem getKey_cons (p : String × JsVal) (rest : List (String × JsVal)) (k : String) :
    getKey (p :: rest) k = if p.1 = k then p.2 else getKey rest k := by
  by_cases h : p.1 = k <;> simp [getKey, List.find?, h]

theorem hasKey_cons (p : String × JsVal) (rest : List (String × JsVal)) (k : String) :
    hasKey (p :: rest) k = (decide (p.1 = k) || hasKey rest k) := by
  simp [hasKey]

theorem setKey_cons (k' : String) (v : JsVal) (p : String × JsVal)
    (rest : List (String × JsVal)) :
    setKey k' v (p :: rest) = if p.1 = k' then (k', v) :: rest else p :: setKey k' v rest := by
  by_cases h : p.1 = k' <;> simp [setKey, h]

theorem getKey_setKey (k k' : String) (v : JsVal) (o : List (String × JsVal)) :
    getKey (setKey k' v o) k = if k = k' then v else getKey o k := by
  induction o with
  | nil =>
    show getKey [(k', v)] k = _
    rw [getKey_cons]
    by_cases h : k = k'
    · simp [h]
    · rw [if_neg (fun hh => h hh.symm), if_neg h, getKey_nil]
  | cons p rest ih =>
    rw [setKey_cons]
    by_cases hp : p.1 = k'
    · rw [if_pos hp, getKey_cons, getKey_cons]
      by_cases hk : k = k'
      · simp [hk]
      · rw [if_neg (fun hh => hk hh.symm), if_neg hk,
          if_neg (by rw [hp]; exact fun hh => hk hh.symm)]
    · rw [if_neg hp, getKey_cons, ih, getKey_cons]
      by_cases hpk : p.1 = k <;> by_cases hk : k = k'
      · exact absurd (hpk.trans hk) hp
      · rw [if_pos hpk, if_neg hk, if_pos hpk]
      · rw [if_neg hpk, if_pos hk, if_pos hk]
      · rw [if_neg hpk, if_neg hk, if_neg hk, if_neg hpk]

theorem hasKey_setKey (k k' : String) (v : JsVal) (o : List (String × JsVal))
    (h : hasKey o k = true) : hasKey (setKey k' v o) k = true := by
  induction o with
  | nil => simp [hasKey] at h
  | cons p rest ih =>
    rw [hasKey_cons] at h
    rw [setKey_cons]
    by_cases hp : p.1 = k'
    · rw [if_pos hp, hasKey_cons]
      rcases Bool.or_eq_true_iff.mp h with h1 | h2
      · rw [hp] at h1
        simp [h1]
      · simp [h2]
    · rw [if_neg hp, hasKey_cons]
      rcases Bool.or_eq_true_iff.mp h with h1 | h2
      · simp [h1]
      · simp [ih h2]

theorem truthyS_none : truthyS none = false := rfl

theorem jsOr_ne_undefined (a : JsVal) {b : JsVal} (hb : b ≠ .vUndefined) : jsOr a b ≠ .vUndefined := by
  unfold jsOr
  by_cases h : jsTruthy a = true
  · simp only [h, if_true]
    intro hEq
    rw [hEq] at h
    simp [jsTruthy] at h
  · simp only [h]
    simpa using hb

theorem filter_ne_filter_eq_nil (db : List ChatMessage) (s : String) :
    ((db.filter fun m => !(m.sessionId = s)).filter fun m => m.sessionId = s) = [] := by
  induction db with
  | nil => rfl
  | cons m rest ih => by_cases h : m.sessionId = s <;> simp [h, ih]

theorem filter_ne_filter_other (db : List ChatMessage) (s s' : String) (hss : s' ≠ s) :
    ((db.filter fun m => !(m.sessionId = s)).filter fun m => m.sessionId = s') =
      db.filter fun m => m.sessionId = s' := by
  induction db with
  | nil => rfl
  | cons m rest ih =>
    by_cases h : m.sessionId = s
    · have h2 : ¬(m.sessionId = s') := fun hh => hss (hh.symm.trans h)
      simp [List.filter_cons, h, h2, ih, hss, Ne.symm hss]
    · by_cases h2 : m.sessionId = s' <;> simp [List.filter_cons, h, h2, ih, hss, Ne.symm hss]

theorem append_ne_empty_left (a b : String) (ha : a ≠ "") : a ++ b ≠ "" := by
  cases a with
  | mk la =>
    cases b with
    | mk lb =>
      intro h
      apply ha
      have hdata : la ++ lb = ([] : List Char) := congrArg String.data h
      rcases List.append_eq_nil.mp hdata with ⟨h1, _⟩
      rw [h1]

theorem fbAddress_ne_empty (q : String) : fbAddress q ≠ "" := by
  unfold fbAddress
  repeat apply append_ne_empty_left
  decide

theorem fallbackTopics_responses_ne_empty :
    ∀ pr ∈ fallbackTopics, ∀ q, pr.2 q ≠ "" := by
  intro pr hpr
  simp only [fallbackTopics, List.mem_cons, List.not_mem_nil, or_false] at hpr
  rcases hpr with rfl | rfl | rfl | rfl | rfl | rfl | rfl | rfl | rfl | rfl | rfl | rfl | rfl |
    rfl | rfl | rfl | rfl | rfl | rfl | rfl | rfl | rfl | rfl | rfl | rfl | rfl | rfl | rfl |
    rfl | rfl | rfl | rfl | rfl | rfl | rfl | rfl | rfl | rfl | rfl | rfl
  all_goals intro q
  exacts [(by decide : fbGreeting ≠ ""), (by decide : fbDeploy ≠ ""),
    (by decide : fbFees ≠ ""), (by decide : fbPlatform ≠ ""),
    (by decide : fbClanker ≠ ""), (by decide : fbUniswap ≠ ""),
    (by decide : fbDexscreener ≠ ""), (by decide : fbStats ≠ ""),
    (by decide : fbBitcoin ≠ ""), (by decide : fbEthereum ≠ ""),
    (by decide : fbSolana ≠ ""), (by decide : fbBnb ≠ ""),
    (by decide : fbPolygon ≠ ""), (by decide : fbBase ≠ ""),
    (by decide : fbLayer2 ≠ ""), (by decide : fbDefi ≠ ""),
    (by decide : fbNft ≠ ""), (by decide : fbWallet ≠ ""),
    (by decide : fbKeys ≠ ""), (by decide : fbGas ≠ ""),
    (by decide : fbStablecoin ≠ ""), (by decide : fbStaking ≠ ""),
    (by decide : fbMemecoin ≠ ""), (by decide : fbSmartContract ≠ ""),
    (by decide : fbErc20 ≠ ""), (by decide : fbWeb3 ≠ ""),
    (by decide : fbDao ≠ ""), (by decide : fbYield ≠ ""),
    (by decide : fbAirdrop ≠ ""), (by decide : fbMarketCap ≠ ""),
    (by decide : fbVolume ≠ ""), (by decide : fbDyor ≠ ""),
    (by decide : fbRugPull ≠ ""), (by decide : fbColdWallet ≠ ""),
    (by decide : fbFudFomo ≠ ""), (by decide : fbWeth ≠ ""),
    (by decide : fbTokenomics ≠ ""), fbAddress_ne_empty q,
    (by decide : fbPrice ≠ ""), (by decide : fbHelp ≠ "")]

theorem fallbackRun_ne_empty (l : List ((String → Bool) × (String → String)))
    (hl : ∀ pr ∈ l, ∀ q, pr.2 q ≠ "") (q : String) (e : Option String) :
    fallbackRun l q e ≠ "" := by
  revert hl
  induction l with
  | nil =>
    intro _
    unfold fallbackRun fallbackDefault
    apply append_ne_empty_left
    decide
  | cons pr rest ih =>
    intro hl
    obtain ⟨p, r⟩ := pr
    simp only [fallbackRun]
    split
    · exact hl (p, r) (List.mem_cons_self _ _) q
    · exact ih fun pr2 h2 => hl pr2 (List.mem_cons_of_mem _ h2)

/-! ## Theorems for the claims -/

/-- C9: clearing the chat history of a session empties that session's
history and leaves every other session's history unchanged. -/
theorem clear_then_get_chat_history :
    ∀ (db : List ChatMessage) (s s' : String),
      getChatHistory (clearChatHistory db s) s = [] ∧
      (s' ≠ s → getChatHistory (clearChatHistory db s) s' = getChatHistory db s') := by
  intro db s s'
  constructor
  · unfold getChatHistory clearChatHistory
    rw [filter_ne_filter_eq_nil]
    rfl
  · intro h
    unfold getChatHistory clearChatHistory
    rw [filter_ne_filter_other db s s' h]

/-- C9 witness: a concrete two-session store; clearing session `a` empties
`a`'s history and leaves `b`'s history intact. -/
theorem clear_then_get_chat_history_witness :
    getChatHistory (clearChatHistory
      [{ sessionId := "a", role := "user", content := "hi", createdAt := 1 },
       { sessionId := "b", role := "user", content := "yo", createdAt := 2 }] "a") "a" = [] ∧
    getChatHistory (clearChatHistory
      [{ sessionId := "a", role := "user", content := "hi", createdAt := 1 },
       { sessionId := "b", role := "user", content := "yo", createdAt := 2 }] "a") "b" =
    getChatHistory
      [{ sessionId := "a", role := "user", content := "hi", createdAt := 1 },
       { sessionId := "b", role := "user", content := "yo", createdAt := 2 }] "b" := by
  refine ⟨(clear_then_get_chat_history _ "a" "b").1,
          (clear_then_get_chat_history _ "a" "b").2 (by decide)⟩

/-- C10: `normalizeToken` keeps every key of the input record, and any key
outside the canonical output fields keeps exactly its original value. -/
theorem normalizeToken_frame_preserves_other_keys :
    ∀ (t : List (String × JsVal)) (k : String), hasKey t k = true →
      hasKey (normalizeToken t) k = true ∧
      (k ∉ canonicalFields → getKey (normalizeToken t) k = getKey t k) := by
  intro t k hk
  constructor
  · simp only [normalizeToken]
    repeat apply hasKey_setKey
    exact hk
  · intro hnc
    simp only [canonicalFields, List.mem_cons, List.not_mem_nil, or_false, not_or] at hnc
    obtain ⟨h1, h2, h3, h4, h5, h6, h7, h8, h9, h10, h11, h12⟩ := hnc
    simp only [normalizeToken]
    rw [getKey_setKey, if_neg h12, getKey_setKey, if_neg h11, getKey_setKey, if_neg h10,
      getKey_setKey, if_neg h9, getKey_setKey, if_neg h8, getKey_setKey, if_neg h7,
      getKey_setKey, if_neg h6, getKey_setKey, if_neg h5, getKey_setKey, if_neg h4,
      getKey_setKey, if_neg h3, getKey_setKey, if_neg h2, getKey_setKey, if_neg h1]

/-- C10 witness: a record with a single non-canonical key `foo` keeps it,
with its original value, through normalization. -/
theorem normalizeToken_frame_preserves_other_keys_witness :
    hasKey (normalizeToken [("foo", JsVal.vStr "bar")]) "foo" = true ∧
    getKey (normalizeToken [("foo", JsVal.vStr "bar")]) "foo" =
      getKey [("foo", JsVal.vStr "bar")] "foo" := by
  have h := normalizeToken_frame_preserves_other_keys [("foo", JsVal.vStr "bar")] "foo" (by decide)
  exact ⟨h.1, h.2 (by decide)⟩

/-- C4 counterexample: the claim says zero/empty defaults are substituted
for every missing field, but a record missing all fields gets name
`"Unknown"`, symbol `"?"` and chain id `8453` — none of which is a zero or
empty default. -/
theorem normalizeToken_defaults_not_all_zero_empty :
    getKey (normalizeToken []) "name" = JsVal.vStr "Unknown" ∧ "Unknown" ≠ "" ∧
    getKey (normalizeToken []) "symbol" = JsVal.vStr "?" ∧ "?" ≠ "" ∧
    getKey (normalizeToken []) "chainId" = JsVal.vNum 8453 ∧ (8453 : Int) ≠ 0 := by
  refine ⟨rfl, by decide, rfl, by decide, rfl, by decide⟩

/-- C4 (amended): `normalizeToken` is total and every canonical output
field of the result is defined for every input record; an input missing all
fields receives the fixed defaults (empty string for address, deploy date,
deployer wallet, image URL and platform, `0` for the market fields,
`"Unknown"` for name, `"?"` for symbol and `8453` for chain id). -/
theorem normalizeToken_total_with_fixed_defaults :
    (∀ (t : List (String × JsVal)) (k : String), k ∈ canonicalFields →
      getKey (normalizeToken t) k ≠ JsVal.vUndefined) ∧
    normalizeToken [] =
      [("address", .vStr ""), ("name", .vStr "Unknown"), ("symbol", .vStr "?"),
       ("deployDate", .vStr ""), ("deployerWallet", .vStr ""), ("imgUrl", .vStr ""),
       ("marketCap", .vNum 0), ("price", .vNum 0), ("priceChange24h", .vNum 0),
       ("volume24h", .vNum 0), ("chainId", .vNum 8453), ("platform", .vStr "")] := by
  constructor
  · intro t k hk
    simp only [canonicalFields, List.mem_cons, List.not_mem_nil, or_false] at hk
    rcases hk with rfl | rfl | rfl | rfl | rfl | rfl | rfl | rfl | rfl | rfl | rfl | rfl <;>
      · simp only [normalizeToken, getKey_setKey]
        norm_num
        repeat apply jsOr_ne_undefined
        intro h
        cases h
  · rfl

/-- C4 witness: the amended theorem applied at the empty record and the
`price` field. -/
theorem normalizeToken_total_with_fixed_defaults_witness :
    getKey (normalizeToken []) "price" ≠ JsVal.vUndefined := by
  exact normalizeToken_total_with_fixed_defaults.1 [] "price" (by decide)

/-- C8: `generateFallbackResponse` is a pure (hence deterministic) total
function that coincides with evaluating the ordered (predicate, responder)
topic list on the lowercased question: the first matching topic wins, and
when nothing matches the generic menu (with the error-tag credit note) is
returned; the answer is never empty. -/
theorem generateFallbackResponse_ordered_first_match_total :
    ∀ (message : String) (errCode : Option String),
      generateFallbackResponse message errCode =
        fallbackRun fallbackTopics (sToLower message) errCode ∧
      generateFallbackResponse message errCode ≠ "" := by
  intro m e
  have hr : generateFallbackResponse m e = fallbackRun fallbackTopics (sToLower m) e := rfl
  refine ⟨hr, ?_⟩
  rw [hr]
  exact fallbackRun_ne_empty fallbackTopics fallbackTopics_responses_ne_empty _ _

/-- C1 counterexample: the chat route accepts a caller-supplied `userWallet`
that starts with `0x` but is only 5 characters long and hands it to
`deployTokenViaSDK`; no 42-character length check runs on this path. -/
theorem chat_wallet_short_0x_reaches_dispatch :
    chatDeployDispatchWallet "deploy token Name: Foo Symbol: BAR" "0x123" = some "0x123" ∧
    ¬("0x123".length = 42) := by
  exact ⟨by decide, by decide⟩

/-- C1 (amended): on the chat route, the wallet string passed to the deploy
dispatch is checked only for being non-empty and `0x`-prefixed; every
wallet that reaches `deployTokenViaSDK` from `/api/chat` satisfies exactly
that, and nothing more (in particular no length-42 check). -/
theorem chat_dispatch_wallet_prefix_checked_only :
    ∀ (message userWallet w : String),
      chatDeployDispatchWallet message userWallet = some w →
      w ≠ "" ∧ sStarts w "0x" = true := by
  intro msg uw w h
  unfold chatDeployDispatchWallet at h
  split at h
  · cases h
  · split at h
    · split at h
      · cases h
      · rename_i hcond
        cases h
        have hc2 := Bool.or_eq_false_iff.mp (Bool.not_eq_true _ |>.mp hcond)
        refine ⟨?_, ?_⟩
        · intro he
          rw [he] at hc2
          simp at hc2
        · have hb := hc2.2
          simp at hb
          exact hb
    · cases h

/-- C1 witness: the amended theorem applied at the counterexample input. -/
theorem chat_dispatch_wallet_prefix_checked_only_witness :
    "0x123" ≠ "" ∧ sStarts "0x123" "0x" = true := by
  exact chat_dispatch_wallet_prefix_checked_only
    "deploy token Name: Foo Symbol: BAR" "0x123" "0x123" (by decide)

/-- C2 counterexample: a text containing the explicit
`Name: Foo Symbol: BAR Wallet: 0x<40 hex>` pattern but no
deploy/launch/create-token keyword parses to `null`, not to a populated
parameter set. -/
theorem parse_pattern_without_keyword_is_null :
    parseDeployMessage
      "Name: Foo Symbol: BAR Wallet: 0x1111111111111111111111111111111111111111" = none := by
  decide

/-- C2 (amended): on a text with a deploy keyword followed by the explicit
pattern — the documented canonical format — the parser extracts name
`Foo`, symbol `BAR` and the 0x-prefixed 40-hex wallet. -/
theorem parse_canonical_deploy_message :
    parseDeployMessage
      "Deploy token Name: Foo Symbol: BAR Wallet: 0x1111111111111111111111111111111111111111" =
      some { name := some "Foo", symbol := some "BAR",
             wallet := some "0x1111111111111111111111111111111111111111",
             websiteUrl := none, twitterUrl := none, description := none,
             imageUrl := none } := by
  decide

/-- C5: with complete parameters and a configured signing key,
`deployTokenViaSDK` passes the SDK exactly two reward recipients — 9000 bps
to the supplied wallet and 1000 bps to the platform agent wallet — and on
SDK success returns the transaction hash with the confirmation wait started
but its outcome ignored (the result is independent of it). -/
theorem deployTokenViaSDK_fee_split_and_fire_and_forget :
    ∀ (agentWallet : String) (params : DeployParams) (h : String) (c : ConfirmOutcome),
      truthyS params.name = true → truthyS params.symbol = true →
      truthyS params.wallet = true →
      ((deployTokenViaSDK true agentWallet params (.resolves (some h) none) c).sdkCall.map
          (·.recipients)) =
        some [{ admin := params.wallet.getD "", recipient := params.wallet.getD "",
                bps := 9000, token := "Both" },
              { admin := agentWallet, recipient := agentWallet, bps := 1000,
                token := "Both" }] ∧
      (deployTokenViaSDK true agentWallet params (.resolves (some h) none) c).result =
        { success := true, txHash := some h, error := none } ∧
      (deployTokenViaSDK true agentWallet params (.resolves (some h) none) c).confirmationStarted
        = true ∧
      (∀ c1 c2, deployTokenViaSDK true agentWallet params (.resolves (some h) none) c1 =
                deployTokenViaSDK true agentWallet params (.resolves (some h) none) c2) := by
  intro aw p h c hn hs hw
  refine ⟨?_, ?_, ?_, fun c1 c2 => rfl⟩ <;>
    simp [deployTokenViaSDK, hn, hs, hw, truthyS_none]

/-- C5 witness: the theorem applied to a concrete complete parameter set. -/
theorem deployTokenViaSDK_fee_split_and_fire_and_forget_witness :
    (deployTokenViaSDK true "0xagent"
        { name := some "Foo", symbol := some "FOO", wallet := some "0x1" }
        (.resolves (some "0xhash") none) .confirmed).result =
      { success := true, txHash := some "0xhash", error := none } := by
  exact (deployTokenViaSDK_fee_split_and_fire_and_forget "0xagent"
    { name := some "Foo", symbol := some "FOO", wallet := some "0x1" }
    "0xhash" .confirmed (by decide) (by decide) (by decide)).2.1

/-- C6: `deployTokenViaSDK` returns `success := false` exactly when the
signing key is unconfigured, a required field (name, symbol, wallet) is
missing/empty, or the SDK call throws or resolves with a truthy error; in
every other case it returns success carrying the SDK's transaction hash. -/
theorem deployTokenViaSDK_failure_characterization :
    ∀ (configured : Bool) (agentWallet : String) (params : DeployParams)
      (sdk : SdkBehavior) (c : ConfirmOutcome),
      ((deployTokenViaSDK configured agentWallet params sdk c).result.success = false ↔
        (configured = false ∨ truthyS params.name = false ∨ truthyS params.symbol = false ∨
         truthyS params.wallet = false ∨ (∃ m, sdk = .throws m) ∨
         (∃ tx e, sdk = .resolves tx e ∧ truthyS e = true))) ∧
      (∀ tx e, configured = true → truthyS params.name = true →
        truthyS params.symbol = true → truthyS params.wallet = true →
        sdk = .resolves tx e → truthyS e = false →
        (deployTokenViaSDK configured agentWallet params sdk c).result =
          { success := true, txHash := tx, error := none }) := by
  intro cfg aw p sdk c
  constructor
  · cases cfg <;> cases hn : truthyS p.name <;> cases hs : truthyS p.symbol <;>
      cases hw : truthyS p.wallet <;> rcases sdk with m | ⟨tx, e⟩ <;>
      first
        | (cases he : truthyS e <;> simp_all [deployTokenViaSDK] <;>
            try exact ⟨tx, e, ⟨rfl, rfl⟩, he⟩)
        | simp_all [deployTokenViaSDK]
  · intro tx e hcfg hn hs hw hsdk he
    subst hcfg
    subst hsdk
    simp [deployTokenViaSDK, hn, hs, hw, he]

/-- C6 witness: the characterization applied at concrete inputs — an
unconfigured key fails, and a configured complete deploy with a clean SDK
resolution succeeds with the SDK's hash. -/
theorem deployTokenViaSDK_failure_characterization_witness :
    (deployTokenViaSDK false "0xagent" {} (.throws none) .confirmed).result.success = false ∧
    (deployTokenViaSDK true "0xagent"
        { name := some "N", symbol := some "S", wallet := some "0x1" }
        (.resolves (some "0xh") none) .confirmed).result =
      { success := true, txHash := some "0xh", error := none } := by
  refine ⟨(deployTokenViaSDK_failure_characterization false "0xagent" {}
      (.throws none) .confirmed).1.mpr (Or.inl rfl),
    (deployTokenViaSDK_failure_characterization true "0xagent"
      { name := some "N", symbol := some "S", wallet := some "0x1" }
      (.resolves (some "0xh") none) .confirmed).2 (some "0xh") none rfl (by decide)
      (by decide) (by decide) rfl (by decide)⟩

/-- C7: `parseDeployMessage` returns `null` whenever the text contains none
of the keywords deploy/launch/create token (case-insensitive), and whenever
it returns a parameter set at least one of name or symbol is populated
(non-empty). -/
theorem parseDeployMessage_null_iff_guard :
    ∀ text : String,
      ((sIncludes (sToLower text) "deploy" = false ∧
        sIncludes (sToLower text) "launch" = false ∧
        sIncludes (sToLower text) "create token" = false) →
        parseDeployMessage text = none) ∧
      (∀ dp, parseDeployMessage text = some dp →
        truthyS dp.name = true ∨ truthyS dp.symbol = true) := by
  intro text
  constructor
  · rintro ⟨h1, h2, h3⟩
    simp only [parseDeployMessage]
    rw [h1, h2, h3]
    simp
  · intro dp h
    simp only [parseDeployMessage] at h
    split at h
    · cases h
    · split at h
      · rename_i hg
        cases h
        simpa using hg
      · cases h

/-- C7 witness: the theorem applied at a keyword-free text. -/
theorem parseDeployMessage_null_iff_guard_witness :
    parseDeployMessage "hello" = none := by
  exact (parseDeployMessage_null_iff_guard "hello").1 ⟨by decide, by decide, by decide⟩

/-- C3: per chat turn, `callConwayAI` sends at most two requests to the
inference endpoint, both with the identical body; a second request is sent
only when the first response status is 402, the first request carries no
payment credential while the resend carries one, and a non-200 status on
the resend is a terminal error for the turn (no further request exists). -/
theorem callConwayAI_single_retry_protocol :
    ∀ (configured : Bool) (messages : List AiMsg) (step1 : NetOutcome) (parse402 : Parse402)
      (sign : PaymentReq → Nat → Except String String) (step2 : NetOutcome)
      (rejectDetail : Option String),
      (callConwayAI configured messages step1 parse402 sign step2 rejectDetail).requests.length
        ≤ 2 ∧
      (∀ r ∈ (callConwayAI configured messages step1 parse402 sign step2 rejectDetail).requests,
        r.body = conwayBody messages) ∧
      ((callConwayAI configured messages step1 parse402 sign step2 rejectDetail).requests.length
          = 2 →
        step1 = .resp 402 ∧
        ((callConwayAI configured messages step1 parse402 sign step2
            rejectDetail).requests.map (·.payment.isSome)) = [false, true]) ∧
      (∀ s2, (callConwayAI configured messages step1 parse402 sign step2
          rejectDetail).requests.length = 2 → step2 = .resp s2 → s2 ≠ 200 →
        ∃ msg, (callConwayAI configured messages step1 parse402 sign step2
          rejectDetail).outcome = .errored msg) := by
  intro cfg msgs step1 p402 sign step2 rd
  cases cfg
  · simp [callConwayAI]
  · rcases step1 with m1 | status1
    · simp [callConwayAI]
    · by_cases h200 : status1 = 200
      · simp [callConwayAI, h200]
      · by_cases h402 : status1 = 402
        · subst h402
          rcases p402 with _ | _ | ⟨first, ver⟩
          · simp [callConwayAI, h200]
          · simp [callConwayAI, h200]
          · rcases hsg : sign (normalizePaymentRequirements first) ver with em | hd
            · simp [callConwayAI, h200, hsg]
            · rcases step2 with m2 | status2
              · simp [callConwayAI, h200, hsg]
              · by_cases h2200 : status2 = 200
                · simp [callConwayAI, h200, hsg, h2200]
                · simp [callConwayAI, h200, hsg, h2200]
        · simp [callConwayAI, h200, h402]

/-- C3 witness: a turn whose first response is 402 and whose paid resend is
rejected with 500 sends exactly the two requests (first without, second
with a payment credential) and ends in a terminal error. -/
theorem callConwayAI_single_retry_protocol_witness :
    ((callConwayAI true [] (.resp 402) (.accepts ⟨"eip155:8453", []⟩ 2)
        (fun _ _ => .ok "hdr") (.resp 500) none).requests.map (·.payment.isSome))
      = [false, true] ∧
    ∃ msg, (callConwayAI true [] (.resp 402) (.accepts ⟨"eip155:8453", []⟩ 2)
        (fun _ _ => .ok "hdr") (.resp 500) none).outcome = .errored msg := by
  refine ⟨((callConwayAI_single_retry_protocol true [] (.resp 402)
      (.accepts ⟨"eip155:8453", []⟩ 2) (fun _ _ => .ok "hdr") (.resp 500) none).2.2.1
      (by rfl)).2,
    (callConwayAI_single_retry_protocol true [] (.resp 402)
      (.accepts ⟨"eip155:8453", []⟩ 2) (fun _ _ => .ok "hdr") (.resp 500) none).2.2.2
      500 (by rfl) rfl (by decide)⟩

end ConwayPad
